import Mathlib

/-!
Verification development for the Guardian-Sight industrial safety auditor.

The definitions below are a shallow embedding of the alert orchestration and
procedural audio synthesis core of the application:

* the severity taxonomy and the three waveform generators (`playSiren`,
  `playBeep`, `playPulse`) with their per-severity parameter tables, each
  rendered as the deterministic schedule of (startTime, frequency, duration,
  peakGain) tuples it produces on the audio device;
* the audio gate `playAlertSound` with its mute / safe-severity guards;
* the alert orchestrator (`triggerAlert`, `toggleMonitoring`) over an explicit
  system state carrying the event log, the visual flash channel, the persistent
  banner channel and the queue of pending `setTimeout` clear callbacks, with
  `runUntil` firing every callback due by a given time;
* the single-flight analysis gate (`submitFrame`, `completeAnalysis`) and the
  verdict normalisation (`splitNumbered`, `reasoningOf`);
* the oracle service `analyzeFrame` mapping a raw response (or failure) to a
  delivered verdict.

Times on the audio clock, volumes and gains are exact rationals; wall-clock
timer times are naturals (milliseconds). Strings are lists of characters.
-/

/-- Hazard severity taxonomy, from `types.ts`. -/
inductive Severity
  | low
  | medium
  | high
  | critical
  | safe
deriving DecidableEq, Repr

/-- The selectable alert waveform kinds, from `SoundSettingsModal`. -/
inductive AlertSoundType
  | siren
  | beep
  | pulse
deriving DecidableEq, Repr

/-- One scheduled tone on the audio device: the (startOffset, frequency,
duration, peakGain) tuple of the spec's deterministic schedule contract. -/
structure ToneEvent where
  startTime : ℚ
  frequency : ℚ
  duration : ℚ
  gain : ℚ
deriving DecidableEq, Repr

/-- Per-severity parameter table of the siren generator. -/
structure SirenParams where
  baseFreq : ℚ
  peakFreq : ℚ
  modRate : ℚ
  duration : ℚ
  volAdjust : ℚ
deriving DecidableEq, Repr

/-- The `switch (severity)` of `playSiren`: `high` shares the `default`
branch, so every severity not listed gets the default parameters. -/
def sirenParams : Severity → SirenParams
  | Severity.critical => ⟨1000, 1600, 20, 0.9, 1.2⟩
  | Severity.medium => ⟨440, 600, 6, 0.5, 0.7⟩
  | Severity.low => ⟨220, 300, 3, 0.4, 0.4⟩
  | _ => ⟨880, 1200, 12, 0.6, 1.0⟩

/-- `playSiren`: a single FM carrier tone whose envelope starts at
`0.3 * masterVolume * volAdjust` and decays exponentially. -/
def playSiren (now masterVolume : ℚ) (severity : Severity) : List ToneEvent :=
  let p := sirenParams severity
  [⟨now, p.baseFreq, p.duration, 0.3 * masterVolume * p.volAdjust⟩]

/-- Per-severity parameter table of the beep generator. -/
structure BeepParams where
  frequency : ℚ
  duration : ℚ
  count : ℕ
  interval : ℚ
  volAdjust : ℚ
deriving DecidableEq, Repr

/-- The `switch (severity)` of `playBeep` over the declared defaults
(frequency 1200, duration 0.15, count 1, interval 0.2, volAdjust 1.0);
`high` shares the `default` branch. -/
def beepParams : Severity → BeepParams
  | Severity.critical => ⟨1500, 0.08, 3, 0.12, 1.1⟩
  | Severity.medium => ⟨800, 0.2, 1, 0.2, 0.7⟩
  | Severity.low => ⟨440, 0.15, 1, 0.2, 0.5⟩
  | _ => ⟨1200, 0.15, 2, 0.18, 1.0⟩

/-- `playBeep`: `count` sine tones at `interval` spacing, each with gain
`0.3 * masterVolume * volAdjust` and a fast exponential decay. -/
def playBeep (now masterVolume : ℚ) (severity : Severity) : List ToneEvent :=
  let p := beepParams severity
  (List.range p.count).map fun i =>
    ⟨now + i * p.interval, p.frequency, p.duration, 0.3 * masterVolume * p.volAdjust⟩

/-- Per-severity parameter table of the pulse generator. -/
structure PulseParams where
  frequency : ℚ
  pulseCount : ℕ
  pulseDuration : ℚ
  interval : ℚ
  volAdjust : ℚ
deriving DecidableEq, Repr

/-- The `switch (severity)` of `playPulse` over the declared defaults
(frequency 110, pulseCount 2, pulseDuration 0.1, interval 0.15,
volAdjust 1.0); `high` shares the `default` branch. -/
def pulseParams : Severity → PulseParams
  | Severity.critical => ⟨150, 4, 0.06, 0.1, 1.2⟩
  | Severity.medium => ⟨80, 1, 0.3, 0.15, 0.8⟩
  | Severity.low => ⟨55, 1, 0.4, 0.15, 0.5⟩
  | _ => ⟨110, 2, 0.1, 0.15, 1.0⟩

/-- `playPulse`: `pulseCount` square-wave bursts with a trapezoidal envelope
whose hold level is `0.4 * masterVolume * volAdjust`. -/
def playPulse (now masterVolume : ℚ) (severity : Severity) : List ToneEvent :=
  let p := pulseParams severity
  (List.range p.pulseCount).map fun i =>
    ⟨now + i * p.interval, p.frequency, p.pulseDuration, 0.4 * masterVolume * p.volAdjust⟩

/-- Dispatch on the selected waveform kind, as in the tail of
`playAlertSound` (`if type === siren ... else if beep ... else if pulse`). -/
def dispatchWaveform (kind : AlertSoundType) (now masterVolume : ℚ)
    (severity : Severity) : List ToneEvent :=
  match kind with
  | AlertSoundType.siren => playSiren now masterVolume severity
  | AlertSoundType.beep => playBeep now masterVolume severity
  | AlertSoundType.pulse => playPulse now masterVolume severity

/-- `playAlertSound(force, severity)`: returns the scheduled tones, or `none`
when the call is a no-op. Mirrors the two guards of the source: first
`if (!force && isMutedRef.current) return;`, then
`if (severity === 'safe' && !force) return;`. -/
def playAlertSound (muted : Bool) (kind : AlertSoundType) (masterVolume : ℚ)
    (force : Bool) (severity : Severity) (now : ℚ) : Option (List ToneEvent) :=
  if force = false ∧ muted = true then none
  else if severity = Severity.safe ∧ force = false then none
  else some (dispatchWaveform kind now masterVolume severity)

/-- The per-generator base gain constant (`0.3` for siren and beep, `0.4`
for pulse) appearing in the `effectiveVol` expressions of the source. -/
def baseGainConstant : AlertSoundType → ℚ
  | AlertSoundType.siren => 0.3
  | AlertSoundType.beep => 0.3
  | AlertSoundType.pulse => 0.4

/-- The per-severity volume multiplier (`volAdjust`) of the selected
generator's parameter table. -/
def severityVolumeMultiplier (kind : AlertSoundType) (severity : Severity) : ℚ :=
  match kind with
  | AlertSoundType.siren => (sirenParams severity).volAdjust
  | AlertSoundType.beep => (beepParams severity).volAdjust
  | AlertSoundType.pulse => (pulseParams severity).volAdjust

/-- The effective scheduled gain formula
`baseGainConstant * masterVolume * severityVolumeMultiplier`. -/
def effectiveGain (kind : AlertSoundType) (severity : Severity) (masterVolume : ℚ) : ℚ :=
  baseGainConstant kind * masterVolume * severityVolumeMultiplier kind severity

/-- The character class of the JavaScript regular-expression digit `\d`. -/
def isDigitChar (c : Char) : Bool := c.isDigit

/-- Worker for `splitNumbered`. `cur` holds the characters of the current
fragment in reverse; `digits` holds a pending run of digits in reverse (the
delimiter `\d+\.` fires exactly when a maximal digit run is immediately
followed by a dot); `acc` holds the finished fragments in reverse. -/
def splitAux : List Char → List Char → List Char → List (List Char) → List (List Char)
  | [], cur, digits, acc => ((digits ++ cur).reverse :: acc).reverse
  | c :: rest, cur, digits, acc =>
    if isDigitChar c then
      splitAux rest cur (c :: digits) acc
    else if c = '.' ∧ digits.isEmpty = false then
      splitAux rest [] [] (cur.reverse :: acc)
    else
      splitAux rest (c :: (digits ++ cur)) [] acc

/-- JavaScript `reasoning_steps.split(/\d+\./)`: the string is cut at every
occurrence of one or more digits followed by a dot; the delimiter occurrences
are dropped and the (possibly empty) fragments between them are returned. -/
def splitNumbered (l : List Char) : List (List Char) := splitAux l [] [] []

/-- Worker for `hasDelim`: `pending` records whether the previous character
was a digit, i.e. whether a dot at the current position completes `\d+\.`. -/
def hasDelimAux : List Char → Bool → Bool
  | [], _ => false
  | c :: rest, pending =>
    if isDigitChar c then hasDelimAux rest true
    else if c = '.' ∧ pending = true then true
    else hasDelimAux rest false

/-- Whether the numbered-list delimiter `\d+\.` occurs anywhere in the text. -/
def hasDelim (l : List Char) : Bool := hasDelimAux l false

/-- The whitespace class trimmed by JavaScript `String.prototype.trim`. -/
def isJsWhitespace (c : Char) : Bool :=
  c = ' ' || c = '\t' || c = '\n' || c = '\r' || c = '\x0b' || c = '\x0c' ||
  c.val = 0x00a0 || c.val = 0x1680 || (0x2000 ≤ c.val && c.val ≤ 0x200a) ||
  c.val = 0x2028 || c.val = 0x2029 || c.val = 0x202f || c.val = 0x205f ||
  c.val = 0x3000 || c.val = 0xfeff

/-- JavaScript `s.trim()`: drop leading and trailing whitespace. -/
def trimChars (l : List Char) : List Char :=
  ((l.dropWhile isJsWhitespace).reverse.dropWhile isJsWhitespace).reverse

/-- The fragment pipeline of `handleFrameCapture`:
`reasoning_steps.split(/\d+\./).map(s => s.trim()).filter(s => s.length > 0)`. -/
def reasoningSteps (raw : List Char) : List (List Char) :=
  ((splitNumbered raw).map trimChars).filter fun s => s.isEmpty = false

/-- `Event.reasoning`: the filtered fragments, or the raw unsplit text as a
single step when every fragment was dropped
(`steps.length > 0 ? steps : [result.reasoning_steps]`). -/
def reasoningOf (raw : List Char) : List (List Char) :=
  if (reasoningSteps raw).isEmpty then [raw] else reasoningSteps raw

/-- A normalized safety event, from `types.ts` (`SafetyEvent`). Timestamps
are milliseconds of wall-clock time; the id is an opaque string. -/
structure SafetyEvent where
  id : List Char
  timestamp : ℕ
  severity : Severity
  message : List Char
  location : List Char
  reasoning : List (List Char)
deriving DecidableEq, Repr

/-- What a pending `setTimeout` callback of `triggerAlert` does when it
fires: `setActiveSeverity(null)` or `setLastAlert(null)`. -/
inductive TimerAction
  | clearFlash
  | clearBanner
deriving DecidableEq, Repr

/-- A pending `setTimeout` callback: the absolute wall-clock time at which it
fires and its effect. -/
structure Timer where
  fireAt : ℕ
  action : TimerAction
deriving DecidableEq, Repr

/-- An audio invocation recorded by the orchestrator: either
`playAlertSound(force, severity)` from `triggerAlert`, or the confirmation
chirp `playBeep(ctx, now, volume, 'low')` from `toggleMonitoring`. -/
inductive AudioCall
  | alertSound (force : Bool) (severity : Severity)
  | confirmationBeep
deriving DecidableEq, Repr

/-- The state of the `App` component that the core claims concern: wall-clock
time, the monitoring and single-flight analysis flags, the event log, the
visual flash channel (`activeSeverity`), the persistent banner channel
(`lastAlert`), the queue of pending clear timers, the engine settings, and
the record of audio invocations. -/
structure SysState where
  time : ℕ
  isMonitoring : Bool
  isAnalyzing : Bool
  events : List SafetyEvent
  activeSeverity : Option Severity
  lastAlert : Option SafetyEvent
  timers : List Timer
  muted : Bool
  alertSound : AlertSoundType
  volume : ℚ
  audioCalls : List AudioCall
deriving DecidableEq, Repr

/-- The initial `useState` values of `App`: not monitoring, empty log, no
flash, no banner, unmuted, default sound `siren`, default volume `0.5`. -/
def initState : SysState :=
  ⟨0, false, false, [], none, none, [], false, AlertSoundType.siren, 0.5, []⟩

/-- The per-severity visual flash duration table of `triggerAlert`
(`let duration = 600; if critical 1200 else if high 900 else if medium 700
else if low 400 else if safe 500`). -/
def flashDuration (severity : Severity) : ℕ :=
  if severity = Severity.critical then 1200
  else if severity = Severity.high then 900
  else if severity = Severity.medium then 700
  else if severity = Severity.low then 400
  else if severity = Severity.safe then 500
  else 600

/-- `triggerAlert(event)`: append to the log, set the flash channel and
schedule its clear, set the banner and schedule its clear for `high` or
`critical` only, and invoke the audio gate for non-`safe` severities. -/
def triggerAlert (s : SysState) (e : SafetyEvent) : SysState :=
  { s with
    events := s.events ++ [e]
    activeSeverity := some e.severity
    lastAlert :=
      if e.severity = Severity.high ∨ e.severity = Severity.critical then some e
      else s.lastAlert
    timers := s.timers ++ [⟨s.time + flashDuration e.severity, TimerAction.clearFlash⟩] ++
      (if e.severity = Severity.high ∨ e.severity = Severity.critical then
        [⟨s.time + 5000, TimerAction.clearBanner⟩]
      else [])
    audioCalls := s.audioCalls ++
      (if e.severity = Severity.safe then []
       else [AudioCall.alertSound false e.severity]) }

/-- `toggleMonitoring`: flip the monitoring flag; when starting, play the
confirmation chirp. No timer is touched and no alert state is cleared. -/
def toggleMonitoring (s : SysState) : SysState :=
  { s with
    isMonitoring := !s.isMonitoring
    audioCalls := s.audioCalls ++
      (if s.isMonitoring then [] else [AudioCall.confirmationBeep]) }

/-- The effect of one fired timer callback. -/
def fireAction (s : SysState) : TimerAction → SysState
  | TimerAction.clearFlash => { s with activeSeverity := none }
  | TimerAction.clearBanner => { s with lastAlert := none }

/-- Fire a list of timer callbacks in order. -/
def runTimers (s : SysState) (l : List Timer) : SysState :=
  l.foldl (fun st tm => fireAction st tm.action) s

/-- Advance the wall clock to time `t`: every pending timer due by `t` fires
and is removed from the queue. -/
def runUntil (s : SysState) (t : ℕ) : SysState :=
  { runTimers s (s.timers.filter fun tm => tm.fireAt ≤ t) with
    timers := s.timers.filter fun tm => t < tm.fireAt
    time := t }

/-- The verdict delivered by the analysis service, from `types.ts`
(`ToolCallArgs`). -/
structure ToolCallArgs where
  severity : Severity
  message : List Char
  location : List Char
  reasoning_steps : List Char
deriving DecidableEq, Repr

/-- An oracle-call failure (`catch (error)` in `analyzeFrame`): a network or
authentication error raised by the generate-content request. -/
inductive OracleError
  | network
  | auth
deriving DecidableEq, Repr

/-- One structured tool call of the oracle response: a
`report_safety_violation` call carrying violation arguments, a
`report_safe_status` call carrying an optional location and optional
reasoning (the source guards both with `||` defaults), or a call whose name
matches neither declared tool. -/
inductive RawFunctionCall
  | violation (args : ToolCallArgs)
  | safeStatus (location : Option (List Char)) (reasoning_steps : Option (List Char))
  | other (name : List Char)
deriving DecidableEq, Repr

/-- `candidate.content.parts`: each part optionally carries a function call. -/
structure RawContent where
  parts : Option (List (Option RawFunctionCall))
deriving DecidableEq, Repr

/-- One response candidate; its content is optional (`candidate.content?`). -/
structure RawCandidate where
  content : Option RawContent
deriving DecidableEq, Repr

/-- The raw oracle response: a list of candidates. -/
structure RawResponse where
  candidates : List RawCandidate
deriving DecidableEq, Repr

/-- `candidate.content?.parts?.filter(p => p.functionCall).map(p =>
p.functionCall)`: the function calls of a candidate, empty when the optional
chain short-circuits. -/
def candFunctionCalls (c : RawCandidate) : List RawFunctionCall :=
  match c.content with
  | none => []
  | some content =>
    match content.parts with
    | none => []
    | some parts => parts.filterMap id

/-- JavaScript `x || d` for an optional string field: the default is used
when the field is absent or is the (falsy) empty string. -/
def jsOrElse (o : Option (List Char)) (d : List Char) : List Char :=
  match o with
  | none => d
  | some s => if s.isEmpty then d else s

/-- The fixed message of a normalized safe-status verdict. -/
def routineClearMessage : List Char := "Routine Check: All Clear".data

/-- The default location substituted for a missing safe-status location. -/
def zone1Default : List Char := "Zone 1".data

/-- The default reasoning substituted for missing safe-status reasoning. -/
def noHazardsDefault : List Char := "No hazards detected.".data

/-- `analyzeFrame`: the oracle call either fails (caught, `null` returned) or
yields a response; the first function call of the first candidate is
examined: a `report_safety_violation` call is returned as the verdict, a
`report_safe_status` call is normalized to a `safe` verdict with defaults
substituted for missing fields, and anything else yields `null`. -/
def analyzeFrame (resp : Except OracleError RawResponse) : Option ToolCallArgs :=
  match resp with
  | Except.error _ => none
  | Except.ok r =>
    match r.candidates with
    | [] => none
    | cand :: _ =>
      match candFunctionCalls cand with
      | [] => none
      | call :: _ =>
        match call with
        | RawFunctionCall.violation args => some args
        | RawFunctionCall.safeStatus loc rs =>
          some ⟨Severity.safe, routineClearMessage,
            jsOrElse loc zone1Default, jsOrElse rs noHazardsDefault⟩
        | RawFunctionCall.other _ => none

/-- The event built by `handleFrameCapture` from a delivered verdict: fresh
id, current timestamp, the verdict fields, and the split reasoning steps. -/
def mkEvent (id : List Char) (ts : ℕ) (r : ToolCallArgs) : SafetyEvent :=
  ⟨id, ts, r.severity, r.message, r.location, reasoningOf r.reasoning_steps⟩

/-- The entry guard of `handleFrameCapture`: `if (isAnalyzing) return;
setIsAnalyzing(true);`. The boolean of the result records whether the oracle
call (`analyzeFrame(base64)`) is issued. -/
def submitFrame (s : SysState) : SysState × Bool :=
  if s.isAnalyzing then (s, false)
  else ({ s with isAnalyzing := true }, true)

/-- The completion of `handleFrameCapture`: a delivered verdict triggers an
alert, a `null` result produces nothing, and the `finally` block clears the
single-flight flag on both paths. -/
def completeAnalysis (s : SysState) (id : List Char) (ts : ℕ)
    (result : Option ToolCallArgs) : SysState :=
  match result with
  | some r => { triggerAlert s (mkEvent id ts r) with isAnalyzing := false }
  | none => { s with isAnalyzing := false }

/-- Unfolding step of `splitAux` on a cons cell. -/
theorem splitAux_cons (c : Char) (rest cur digits : List Char) (acc : List (List Char)) :
    splitAux (c :: rest) cur digits acc =
      if isDigitChar c then splitAux rest cur (c :: digits) acc
      else if c = '.' ∧ digits.isEmpty = false then splitAux rest [] [] (cur.reverse :: acc)
      else splitAux rest (c :: (digits ++ cur)) [] acc := rfl

/-- Unfolding step of `hasDelimAux` on a cons cell. -/
theorem hasDelimAux_cons (c : Char) (rest : List Char) (pending : Bool) :
    hasDelimAux (c :: rest) pending =
      if isDigitChar c then hasDelimAux rest true
      else if c = '.' ∧ pending = true then true
      else hasDelimAux rest false := rfl

/-- On a suffix containing no delimiter occurrence, the splitter just folds
every remaining character into the current fragment. -/
theorem splitAux_of_no_delim (rest : List Char) :
    ∀ cur digits acc, hasDelimAux rest (!digits.isEmpty) = false →
      splitAux rest cur digits acc = (((digits ++ cur).reverse ++ rest) :: acc).reverse := by
  induction rest with
  | nil =>
    intro cur digits acc _
    simp [splitAux]
  | cons c rest ih =>
    intro cur digits acc h
    rw [hasDelimAux_cons] at h
    rw [splitAux_cons]
    by_cases hd : isDigitChar c = true
    · rw [if_pos hd] at h ⊢
      rw [ih cur (c :: digits) acc (by simpa using h)]
      simp [List.reverse_cons, List.append_assoc]
    · rw [if_neg hd] at h ⊢
      by_cases hdot : c = '.' ∧ digits.isEmpty = false
      · exfalso
        have hcond : c = '.' ∧ (!digits.isEmpty) = true := ⟨hdot.1, by simp [hdot.2]⟩
        rw [if_pos hcond] at h
        exact Bool.noConfusion h
      · have hcond : ¬(c = '.' ∧ (!digits.isEmpty) = true) := by
          intro hx
          exact hdot ⟨hx.1, by simpa using hx.2⟩
        rw [if_neg hcond] at h
        rw [if_neg hdot]
        rw [ih (c :: (digits ++ cur)) [] acc (by simpa using h)]
        simp [List.reverse_cons, List.append_assoc]

/-- When the text contains no `\d+\.` delimiter, the split returns the whole
text as its only fragment. -/
theorem splitNumbered_of_no_delim (raw : List Char) (h : hasDelim raw = false) :
    splitNumbered raw = [raw] := by
  have hs := splitAux_of_no_delim raw [] [] [] (by simpa [hasDelim] using h)
  simpa [splitNumbered] using hs

/-- Claim C1: a frame submission while an analysis is in flight
(`isAnalyzing = true`) is a silent no-op: the state is unchanged and no
oracle call is issued; a submission while idle flips the flag to true and
issues the call; and every completion path — verdict delivered, `null`
result, failure — resets the flag to false. -/
theorem C1_singleFlight (s : SysState) :
    (s.isAnalyzing = true → submitFrame s = (s, false)) ∧
    (s.isAnalyzing = false →
      (submitFrame s).1.isAnalyzing = true ∧ (submitFrame s).2 = true) ∧
    (∀ id ts result, (completeAnalysis s id ts result).isAnalyzing = false) := by
  refine ⟨?_, ?_, ?_⟩
  · intro h
    simp [submitFrame, h]
  · intro h
    simp [submitFrame, h]
  · intro id ts result
    cases result <;> rfl

/-- Witness for C1 at a concrete state. -/
theorem C1_singleFlight_witness :
    ({ initState with isAnalyzing := true } : SysState).isAnalyzing = true ∧
    submitFrame { initState with isAnalyzing := true } =
      ({ initState with isAnalyzing := true }, false) ∧
    initState.isAnalyzing = false ∧
    (submitFrame initState).1.isAnalyzing = true :=
  ⟨rfl, (C1_singleFlight { initState with isAnalyzing := true }).1 rfl, rfl,
    ((C1_singleFlight initState).2.1 rfl).1⟩

/-- Claim C2: `playAlertSound` is a no-op when `!force && muted` and when the
severity is `safe` without `force`; `force = true` bypasses both guards and
dispatches to the selected generator; and `triggerAlert` never invokes audio
for a `safe` event. -/
theorem C2_playGuards (muted : Bool) (kind : AlertSoundType) (vol now : ℚ)
    (force : Bool) (sev : Severity) :
    (force = false → muted = true →
      playAlertSound muted kind vol force sev now = none) ∧
    (force = false → sev = Severity.safe →
      playAlertSound muted kind vol force sev now = none) ∧
    (force = true →
      playAlertSound muted kind vol force sev now =
        some (dispatchWaveform kind now vol sev)) ∧
    (∀ (s : SysState) (e : SafetyEvent), e.severity = Severity.safe →
      (triggerAlert s e).audioCalls = s.audioCalls) := by
  refine ⟨?_, ?_, ?_, ?_⟩
  · intro hf hm
    simp [playAlertSound, hf, hm]
  · intro hf hs
    subst hf
    subst hs
    cases muted <;> simp [playAlertSound]
  · intro hf
    subst hf
    simp [playAlertSound]
  · intro s e he
    simp [triggerAlert, he]

/-- Witness for C2 at concrete inputs. -/
theorem C2_playGuards_witness :
    playAlertSound true AlertSoundType.siren 1 false Severity.high 0 = none ∧
    playAlertSound false AlertSoundType.siren 1 false Severity.safe 0 = none ∧
    playAlertSound true AlertSoundType.beep 1 true Severity.safe 0 =
      some (dispatchWaveform AlertSoundType.beep 0 1 Severity.safe) :=
  ⟨(C2_playGuards true AlertSoundType.siren 1 0 false Severity.high).1 rfl rfl,
   (C2_playGuards false AlertSoundType.siren 1 0 false Severity.safe).2.1 rfl rfl,
   (C2_playGuards true AlertSoundType.beep 1 0 true Severity.safe).2.2.1 rfl⟩

/-- Claim C3: the raw `reasoning_steps` text is split on the numbered-list
delimiter with fragments trimmed and empty fragments dropped; when no
delimiter occurs the result is the single whole (trimmed) text, with the raw
unsplit text as the fallback once trimming empties it; hence the reasoning
list is never empty; and the documented example splits into exactly its two
steps. -/
theorem C3_reasoningSplit :
    (∀ raw, reasoningOf raw ≠ []) ∧
    (∀ raw, hasDelim raw = false →
      reasoningOf raw =
        if trimChars raw = [] then [raw] else [trimChars raw]) ∧
    reasoningOf "1. Worker detected. 2. No harness.".data =
      ["Worker detected.".data, "No harness.".data] := by
  refine ⟨?_, ?_, rfl⟩
  · intro raw
    unfold reasoningOf
    cases hl : reasoningSteps raw with
    | nil => simp
    | cons a l => simp [hl]
  · intro raw h
    have hs := splitNumbered_of_no_delim raw h
    unfold reasoningOf reasoningSteps
    rw [hs]
    by_cases ht : trimChars raw = []
    · simp [ht]
    · cases htl : trimChars raw with
      | nil => exact absurd htl ht
      | cons a l => simp [htl]

/-- Witness for C3 at a concrete delimiter-free text. -/
theorem C3_reasoningSplit_witness :
    hasDelim "No violations observed".data = false ∧
    reasoningOf "No violations observed".data =
      (if trimChars "No violations observed".data = [] then
        ["No violations observed".data]
      else [trimChars "No violations observed".data]) :=
  ⟨rfl, C3_reasoningSplit.2.1 "No violations observed".data rfl⟩

/-- Firing timers none of which clears the flash leaves the flash channel
unchanged. -/
theorem runTimers_activeSeverity_of_forall (l : List Timer) :
    ∀ s : SysState, (∀ tm ∈ l, tm.action ≠ TimerAction.clearFlash) →
      (runTimers s l).activeSeverity = s.activeSeverity := by
  induction l with
  | nil => intro s _; rfl
  | cons tm rest ih =>
    intro s h
    have h1 := h tm (List.mem_cons_self tm rest)
    have hstep : runTimers s (tm :: rest) = runTimers (fireAction s tm.action) rest := rfl
    rw [hstep, ih (fireAction s tm.action) (fun x hx => h x (List.mem_cons_of_mem tm hx))]
    cases ha : tm.action with
    | clearFlash => exact absurd ha h1
    | clearBanner => rfl

/-- A cleared flash channel stays cleared under any further timer firing. -/
theorem runTimers_activeSeverity_none (l : List Timer) :
    ∀ s : SysState, s.activeSeverity = none → (runTimers s l).activeSeverity = none := by
  induction l with
  | nil => intro s h; exact h
  | cons tm rest ih =>
    intro s h
    have hstep : runTimers s (tm :: rest) = runTimers (fireAction s tm.action) rest := rfl
    rw [hstep]
    apply ih
    cases tm.action with
    | clearFlash => rfl
    | clearBanner => exact h

/-- Firing a batch containing a flash-clear callback clears the flash. -/
theorem runTimers_activeSeverity_of_mem (l : List Timer) :
    ∀ s : SysState, (∃ tm ∈ l, tm.action = TimerAction.clearFlash) →
      (runTimers s l).activeSeverity = none := by
  induction l with
  | nil =>
    intro s h
    simp at h
  | cons tm rest ih =>
    intro s h
    have hstep : runTimers s (tm :: rest) = runTimers (fireAction s tm.action) rest := rfl
    rw [hstep]
    rcases h with ⟨tm2, hmem, ha⟩
    rcases List.mem_cons.mp hmem with h1 | h1
    · subst h1
      exact runTimers_activeSeverity_none rest (fireAction s tm2.action) (by rw [ha]; rfl)
    · exact ih (fireAction s tm.action) ⟨tm2, h1, ha⟩

/-- Firing timers none of which clears the banner leaves the banner
unchanged. -/
theorem runTimers_lastAlert_of_forall (l : List Timer) :
    ∀ s : SysState, (∀ tm ∈ l, tm.action ≠ TimerAction.clearBanner) →
      (runTimers s l).lastAlert = s.lastAlert := by
  induction l with
  | nil => intro s _; rfl
  | cons tm rest ih =>
    intro s h
    have h1 := h tm (List.mem_cons_self tm rest)
    have hstep : runTimers s (tm :: rest) = runTimers (fireAction s tm.action) rest := rfl
    rw [hstep, ih (fireAction s tm.action) (fun x hx => h x (List.mem_cons_of_mem tm hx))]
    cases ha : tm.action with
    | clearFlash => rfl
    | clearBanner => exact absurd ha h1

/-- A cleared banner stays cleared under any further timer firing. -/
theorem runTimers_lastAlert_none (l : List Timer) :
    ∀ s : SysState, s.lastAlert = none → (runTimers s l).lastAlert = none := by
  induction l with
  | nil => intro s h; exact h
  | cons tm rest ih =>
    intro s h
    have hstep : runTimers s (tm :: rest) = runTimers (fireAction s tm.action) rest := rfl
    rw [hstep]
    apply ih
    cases tm.action with
    | clearFlash => exact h
    | clearBanner => rfl

/-- Firing a batch containing a banner-clear callback clears the banner. -/
theorem runTimers_lastAlert_of_mem (l : List Timer) :
    ∀ s : SysState, (∃ tm ∈ l, tm.action = TimerAction.clearBanner) →
      (runTimers s l).lastAlert = none := by
  induction l with
  | nil =>
    intro s h
    simp at h
  | cons tm rest ih =>
    intro s h
    have hstep : runTimers s (tm :: rest) = runTimers (fireAction s tm.action) rest := rfl
    rw [hstep]
    rcases h with ⟨tm2, hmem, ha⟩
    rcases List.mem_cons.mp hmem with h1 | h1
    · subst h1
      exact runTimers_lastAlert_none rest (fireAction s tm2.action) (by rw [ha]; rfl)
    · exact ih (fireAction s tm.action) ⟨tm2, h1, ha⟩

/-- The flash channel after advancing the clock is the flash channel after
firing the due timers. -/
theorem runUntil_activeSeverity (s : SysState) (t : ℕ) :
    (runUntil s t).activeSeverity =
      (runTimers s (s.timers.filter fun tm => tm.fireAt ≤ t)).activeSeverity := rfl

/-- The banner after advancing the clock is the banner after firing the due
timers. -/
theorem runUntil_lastAlert (s : SysState) (t : ℕ) :
    (runUntil s t).lastAlert =
      (runTimers s (s.timers.filter fun tm => tm.fireAt ≤ t)).lastAlert := rfl

/-- The timer queue produced by `triggerAlert`. -/
theorem triggerAlert_timers (s : SysState) (e : SafetyEvent) :
    (triggerAlert s e).timers =
      s.timers ++ [⟨s.time + flashDuration e.severity, TimerAction.clearFlash⟩] ++
        (if e.severity = Severity.high ∨ e.severity = Severity.critical then
          [⟨s.time + 5000, TimerAction.clearBanner⟩] else []) := rfl

/-- Claim C4: `triggerAlert` sets the flash channel to the incoming event's
severity; with no other pending flash-clear timer, the flash stays set at
every time strictly before the per-severity duration elapses and is cleared
at and after that bound; and the duration table is critical 1200, high 900,
medium 700, low 400, safe 500 (milliseconds). -/
theorem C4_flashChannel (s : SysState) (e : SafetyEvent)
    (hq : ∀ tm ∈ s.timers, tm.action ≠ TimerAction.clearFlash) :
    (triggerAlert s e).activeSeverity = some e.severity ∧
    (∀ t, t < s.time + flashDuration e.severity →
      (runUntil (triggerAlert s e) t).activeSeverity = some e.severity) ∧
    (∀ t, s.time + flashDuration e.severity ≤ t →
      (runUntil (triggerAlert s e) t).activeSeverity = none) ∧
    flashDuration Severity.critical = 1200 ∧ flashDuration Severity.high = 900 ∧
    flashDuration Severity.medium = 700 ∧ flashDuration Severity.low = 400 ∧
    flashDuration Severity.safe = 500 := by
  refine ⟨rfl, ?_, ?_, rfl, rfl, rfl, rfl, rfl⟩
  · intro t ht
    rw [runUntil_activeSeverity]
    have hall : ∀ tm ∈ (triggerAlert s e).timers.filter (fun tm => tm.fireAt ≤ t),
        tm.action ≠ TimerAction.clearFlash := by
      intro tm hmem
      rcases List.mem_filter.mp hmem with ⟨hmem2, hle⟩
      have hle2 : tm.fireAt ≤ t := of_decide_eq_true hle
      rw [triggerAlert_timers] at hmem2
      rcases List.mem_append.mp hmem2 with h2 | h2
      · rcases List.mem_append.mp h2 with h3 | h3
        · exact hq tm h3
        · exfalso
          have heq : tm = ⟨s.time + flashDuration e.severity, TimerAction.clearFlash⟩ :=
            List.mem_singleton.mp h3
          subst heq
          exact absurd hle2 (Nat.not_le.mpr ht)
      · by_cases hb : e.severity = Severity.high ∨ e.severity = Severity.critical
        · rw [if_pos hb] at h2
          have heq : tm = ⟨s.time + 5000, TimerAction.clearBanner⟩ := List.mem_singleton.mp h2
          subst heq
          simp
        · rw [if_neg hb] at h2
          simp at h2
    rw [runTimers_activeSeverity_of_forall _ _ hall]
    rfl
  · intro t ht
    rw [runUntil_activeSeverity]
    apply runTimers_activeSeverity_of_mem
    refine ⟨⟨s.time + flashDuration e.severity, TimerAction.clearFlash⟩, ?_, rfl⟩
    rw [List.mem_filter]
    refine ⟨?_, decide_eq_true ht⟩
    rw [triggerAlert_timers]
    simp

/-- Witness for C4 at a concrete quiescent state and a critical event. -/
theorem C4_flashChannel_witness :
    (∀ tm ∈ initState.timers, tm.action ≠ TimerAction.clearFlash) ∧
    (runUntil (triggerAlert initState ⟨[], 0, Severity.critical, [], [], [[]]⟩)
      1199).activeSeverity = some Severity.critical ∧
    (runUntil (triggerAlert initState ⟨[], 0, Severity.critical, [], [], [[]]⟩)
      1200).activeSeverity = none :=
  ⟨by decide,
   (C4_flashChannel initState ⟨[], 0, Severity.critical, [], [], [[]]⟩ (by decide)).2.1
     1199 (by decide),
   (C4_flashChannel initState ⟨[], 0, Severity.critical, [], [], [[]]⟩ (by decide)).2.2.1
     1200 (by decide)⟩

/-- Claim C5: the persistent banner is set exactly for severities `high` and
`critical`; with no other pending banner-clear timer and no further events,
it stays set at every time strictly before 5000 ms elapse and is cleared at
and after that bound; `low`, `medium` and `safe` events leave the banner
unchanged and schedule no banner-clear timer. -/
theorem C5_bannerChannel (s : SysState) (e : SafetyEvent)
    (hq : ∀ tm ∈ s.timers, tm.action ≠ TimerAction.clearBanner) :
    ((e.severity = Severity.high ∨ e.severity = Severity.critical) →
      (triggerAlert s e).lastAlert = some e ∧
      (∀ t, t < s.time + 5000 →
        (runUntil (triggerAlert s e) t).lastAlert = some e) ∧
      (∀ t, s.time + 5000 ≤ t →
        (runUntil (triggerAlert s e) t).lastAlert = none)) ∧
    (¬(e.severity = Severity.high ∨ e.severity = Severity.critical) →
      (triggerAlert s e).lastAlert = s.lastAlert ∧
      (∀ tm ∈ (triggerAlert s e).timers,
        tm.action = TimerAction.clearBanner → tm ∈ s.timers)) := by
  constructor
  · intro hb
    have hset : (triggerAlert s e).lastAlert = some e := by
      simp only [triggerAlert]
      rw [if_pos hb]
    refine ⟨hset, ?_, ?_⟩
    · intro t ht
      rw [runUntil_lastAlert]
      have hall : ∀ tm ∈ (triggerAlert s e).timers.filter (fun tm => tm.fireAt ≤ t),
          tm.action ≠ TimerAction.clearBanner := by
        intro tm hmem
        rcases List.mem_filter.mp hmem with ⟨hmem2, hle⟩
        have hle2 : tm.fireAt ≤ t := of_decide_eq_true hle
        rw [triggerAlert_timers] at hmem2
        rcases List.mem_append.mp hmem2 with h2 | h2
        · rcases List.mem_append.mp h2 with h3 | h3
          · exact hq tm h3
          · have heq : tm = ⟨s.time + flashDuration e.severity, TimerAction.clearFlash⟩ :=
              List.mem_singleton.mp h3
            subst heq
            simp
        · rw [if_pos hb] at h2
          exfalso
          have heq : tm = ⟨s.time + 5000, TimerAction.clearBanner⟩ := List.mem_singleton.mp h2
          subst heq
          exact absurd hle2 (Nat.not_le.mpr ht)
      rw [runTimers_lastAlert_of_forall _ _ hall]
      exact hset
    · intro t ht
      rw [runUntil_lastAlert]
      apply runTimers_lastAlert_of_mem
      refine ⟨⟨s.time + 5000, TimerAction.clearBanner⟩, ?_, rfl⟩
      rw [List.mem_filter]
      refine ⟨?_, decide_eq_true ht⟩
      rw [triggerAlert_timers, if_pos hb]
      simp
  · intro hb
    constructor
    · simp only [triggerAlert]
      rw [if_neg hb]
    · intro tm hmem hact
      rw [triggerAlert_timers, if_neg hb] at hmem
      rcases List.mem_append.mp hmem with h2 | h2
      · rcases List.mem_append.mp h2 with h3 | h3
        · exact h3
        · exfalso
          have heq : tm = ⟨s.time + flashDuration e.severity, TimerAction.clearFlash⟩ :=
            List.mem_singleton.mp h3
          subst heq
          exact TimerAction.noConfusion hact
      · simp at h2

/-- Witness for C5 at a concrete quiescent state: a high event sets and then
clears the banner; a low event leaves it untouched. -/
theorem C5_bannerChannel_witness :
    (∀ tm ∈ initState.timers, tm.action ≠ TimerAction.clearBanner) ∧
    (triggerAlert initState ⟨[], 0, Severity.high, [], [], [[]]⟩).lastAlert =
      some ⟨[], 0, Severity.high, [], [], [[]]⟩ ∧
    (runUntil (triggerAlert initState ⟨[], 0, Severity.high, [], [], [[]]⟩)
      5000).lastAlert = none ∧
    (triggerAlert initState ⟨[], 0, Severity.low, [], [], [[]]⟩).lastAlert =
      initState.lastAlert :=
  ⟨by decide,
   ((C5_bannerChannel initState ⟨[], 0, Severity.high, [], [], [[]]⟩ (by decide)).1
     (Or.inl rfl)).1,
   ((C5_bannerChannel initState ⟨[], 0, Severity.high, [], [], [[]]⟩ (by decide)).1
     (Or.inl rfl)).2.2 5000 (by decide),
   ((C5_bannerChannel initState ⟨[], 0, Severity.low, [], [], [[]]⟩ (by decide)).2
     (by decide)).1⟩

/-- Claim C6: every tone any generator schedules for an alerting severity
carries the gain `baseGainConstant * masterVolume * severityVolumeMultiplier`;
that effective gain is 0 at master volume 0 and strictly increasing in the
master volume on positive volumes. -/
theorem C6_gainScaling (kind : AlertSoundType) (sev : Severity)
    (hsev : sev ≠ Severity.safe) (now v w : ℚ) :
    (∀ tone ∈ dispatchWaveform kind now v sev, tone.gain = effectiveGain kind sev v) ∧
    effectiveGain kind sev 0 = 0 ∧
    (0 < v → v < w → effectiveGain kind sev v < effectiveGain kind sev w) := by
  refine ⟨?_, ?_, ?_⟩
  · intro tone htone
    cases kind with
    | siren =>
      simp only [dispatchWaveform, playSiren, List.mem_singleton] at htone
      subst htone
      rfl
    | beep =>
      simp only [dispatchWaveform, playBeep, List.mem_map] at htone
      obtain ⟨i, hi, rfl⟩ := htone
      rfl
    | pulse =>
      simp only [dispatchWaveform, playPulse, List.mem_map] at htone
      obtain ⟨i, hi, rfl⟩ := htone
      rfl
  · simp [effectiveGain]
  · intro hv hvw
    have hb : 0 < baseGainConstant kind := by
      cases kind <;> norm_num [baseGainConstant]
    have hm : 0 < severityVolumeMultiplier kind sev := by
      cases kind <;> cases sev <;>
        norm_num [severityVolumeMultiplier, sirenParams, beepParams, pulseParams]
    calc baseGainConstant kind * v * severityVolumeMultiplier kind sev
        = baseGainConstant kind * severityVolumeMultiplier kind sev * v := by ring
      _ < baseGainConstant kind * severityVolumeMultiplier kind sev * w :=
          mul_lt_mul_of_pos_left hvw (mul_pos hb hm)
      _ = baseGainConstant kind * w * severityVolumeMultiplier kind sev := by ring

/-- Witness for C6 at the siren generator, critical severity, volumes 1, 2. -/
theorem C6_gainScaling_witness :
    Severity.critical ≠ Severity.safe ∧
    effectiveGain AlertSoundType.siren Severity.critical 0 = 0 ∧
    (0:ℚ) < 1 ∧ (1:ℚ) < 2 ∧
    effectiveGain AlertSoundType.siren Severity.critical 1 <
      effectiveGain AlertSoundType.siren Severity.critical 2 :=
  ⟨by decide,
   (C6_gainScaling AlertSoundType.siren Severity.critical (by decide) 0 1 2).2.1,
   one_pos, one_lt_two,
   (C6_gainScaling AlertSoundType.siren Severity.critical (by decide) 0 1 2).2.2
     one_pos one_lt_two⟩

/-- Counterexample for C7: invoked with `safe`, the siren generator neither
treats `safe` as the table entry used for `low` (its schedule differs from
the `low` schedule already in the carrier frequency) nor rejects the
invocation (it schedules a nonempty tone sequence). -/
theorem C7_counterexample :
    dispatchWaveform AlertSoundType.siren 0 1 Severity.safe ≠
      dispatchWaveform AlertSoundType.siren 0 1 Severity.low ∧
    dispatchWaveform AlertSoundType.siren 0 1 Severity.safe ≠ [] := by
  constructor
  · intro h
    simp only [dispatchWaveform, playSiren, sirenParams, List.cons.injEq,
      ToneEvent.mk.injEq] at h
    norm_num at h
  · intro h
    simp [dispatchWaveform, playSiren] at h

/-- Claim C7 as amended: the generators are total on `safe` (no crash) but
treat it through the `default` branch of each severity switch, so a `safe`
invocation schedules exactly the parameters used for `high` — not the `low`
entry, and not a rejection: the schedule is nonempty. -/
theorem C7_amended_safeUsesHighDefaults (kind : AlertSoundType) (now v : ℚ) :
    dispatchWaveform kind now v Severity.safe =
      dispatchWaveform kind now v Severity.high ∧
    dispatchWaveform kind now v Severity.safe ≠ [] := by
  constructor
  · cases kind <;> rfl
  · cases kind <;> intro h <;>
      simp [dispatchWaveform, playSiren, playBeep, playPulse,
        sirenParams, beepParams, pulseParams, List.range_succ] at h

/-- A critical event in a monitoring session at time 0. -/
def cexEvent : SafetyEvent := ⟨[], 0, Severity.critical, [], [], [[]]⟩

/-- The session state right after that event is alerted. -/
def cexAfterAlert : SysState :=
  triggerAlert { initState with isMonitoring := true } cexEvent

/-- The session state right after monitoring is then stopped. -/
def cexAfterStop : SysState := toggleMonitoring cexAfterAlert

/-- Counterexample for C8: stopping monitoring leaves both the flash-clear
and the banner-clear timers pending, and they subsequently fire, clearing
the flash and the banner after session stop — orphaned callbacks do run. -/
theorem C8_counterexample :
    cexAfterStop.isMonitoring = false ∧
    cexAfterStop.timers = cexAfterAlert.timers ∧
    cexAfterStop.timers ≠ [] ∧
    cexAfterAlert.activeSeverity = some Severity.critical ∧
    cexAfterAlert.lastAlert = some cexEvent ∧
    (runUntil cexAfterStop 5000).activeSeverity = none ∧
    (runUntil cexAfterStop 5000).lastAlert = none := by
  refine ⟨rfl, rfl, ?_, rfl, rfl, rfl, rfl⟩
  intro h
  simp [cexAfterStop, cexAfterAlert, toggleMonitoring, triggerAlert, initState] at h

/-- Fired timers act only on the flash and banner channels, so two states
agreeing there stay in agreement under any timer batch. -/
theorem runTimers_congr (l : List Timer) :
    ∀ s1 s2 : SysState, s1.activeSeverity = s2.activeSeverity →
      s1.lastAlert = s2.lastAlert →
      (runTimers s1 l).activeSeverity = (runTimers s2 l).activeSeverity ∧
      (runTimers s1 l).lastAlert = (runTimers s2 l).lastAlert := by
  induction l with
  | nil => intro s1 s2 h1 h2; exact ⟨h1, h2⟩
  | cons tm rest ih =>
    intro s1 s2 h1 h2
    apply ih
    · cases ha : tm.action <;> simp [fireAction, ha, h1]
    · cases ha : tm.action <;> simp [fireAction, ha, h2]

/-- Claim C8 as amended: stopping monitoring does not cancel any pending
flash-clear or banner-clear timer — `toggleMonitoring` leaves the timer
queue, the event log and both alert channels untouched (only the monitoring
flag and the audio record change), so the pending clear callbacks fire after
session stop exactly as they would have without it. -/
theorem C8_amended_stopCancelsNothing (s : SysState) :
    (toggleMonitoring s).timers = s.timers ∧
    (toggleMonitoring s).activeSeverity = s.activeSeverity ∧
    (toggleMonitoring s).lastAlert = s.lastAlert ∧
    (toggleMonitoring s).events = s.events ∧
    (toggleMonitoring s).isMonitoring = !s.isMonitoring ∧
    (∀ t, (runUntil (toggleMonitoring s) t).activeSeverity =
      (runUntil s t).activeSeverity) ∧
    (∀ t, (runUntil (toggleMonitoring s) t).lastAlert = (runUntil s t).lastAlert) := by
  refine ⟨rfl, rfl, rfl, rfl, rfl, ?_, ?_⟩
  · intro t
    rw [runUntil_activeSeverity, runUntil_activeSeverity]
    exact (runTimers_congr _ (toggleMonitoring s) s rfl rfl).1
  · intro t
    rw [runUntil_lastAlert, runUntil_lastAlert]
    exact (runTimers_congr _ (toggleMonitoring s) s rfl rfl).2

/-- Claim C9: an oracle failure, an empty candidate list, a candidate with
no function call, and a first function call naming neither declared tool all
make `analyzeFrame` return `null`; and a `null` analysis result completes
the capture iteration without producing or logging any event, changing
nothing but the single-flight flag. -/
theorem C9_oracleFailureSilent :
    (∀ err, analyzeFrame (Except.error err) = none) ∧
    (∀ r : RawResponse, r.candidates = [] → analyzeFrame (Except.ok r) = none) ∧
    (∀ (r : RawResponse) (cand : RawCandidate) (rest : List RawCandidate),
      r.candidates = cand :: rest → candFunctionCalls cand = [] →
      analyzeFrame (Except.ok r) = none) ∧
    (∀ (r : RawResponse) (cand : RawCandidate) (rest : List RawCandidate)
      (name : List Char) (more : List RawFunctionCall),
      r.candidates = cand :: rest →
      candFunctionCalls cand = RawFunctionCall.other name :: more →
      analyzeFrame (Except.ok r) = none) ∧
    (∀ (s : SysState) (id : List Char) (ts : ℕ),
      completeAnalysis s id ts none = { s with isAnalyzing := false }) := by
  refine ⟨fun err => rfl, ?_, ?_, ?_, fun s id ts => rfl⟩
  · intro r h
    simp [analyzeFrame, h]
  · intro r cand rest h1 h2
    simp [analyzeFrame, h1, h2]
  · intro r cand rest name more h1 h2
    simp [analyzeFrame, h1, h2]

/-- Witness for C9 at concrete responses. -/
theorem C9_oracleFailureSilent_witness :
    analyzeFrame (Except.error OracleError.network) = none ∧
    (⟨[]⟩ : RawResponse).candidates = [] ∧
    analyzeFrame (Except.ok ⟨[]⟩) = none ∧
    analyzeFrame (Except.ok ⟨[⟨none⟩]⟩) = none ∧
    analyzeFrame (Except.ok ⟨[⟨some ⟨some [some (RawFunctionCall.other [])]⟩⟩]⟩) = none ∧
    completeAnalysis initState [] 0 none = { initState with isAnalyzing := false } :=
  ⟨C9_oracleFailureSilent.1 OracleError.network,
   rfl,
   C9_oracleFailureSilent.2.1 ⟨[]⟩ rfl,
   C9_oracleFailureSilent.2.2.1 ⟨[⟨none⟩]⟩ ⟨none⟩ [] rfl rfl,
   C9_oracleFailureSilent.2.2.2.1 ⟨[⟨some ⟨some [some (RawFunctionCall.other [])]⟩⟩]⟩
     ⟨some ⟨some [some (RawFunctionCall.other [])]⟩⟩ [] [] [] rfl rfl,
   C9_oracleFailureSilent.2.2.2.2 initState [] 0⟩

/-- A JavaScript `||` default over a nonempty default string is nonempty. -/
theorem jsOrElse_ne_nil (o : Option (List Char)) (d : List Char) (hd : d ≠ []) :
    jsOrElse o d ≠ [] := by
  cases o with
  | none => exact hd
  | some s =>
    cases s with
    | nil => simpa [jsOrElse] using hd
    | cons a l => simp [jsOrElse]

/-- Claim C10: a response whose first function call is `report_safe_status`
yields a verdict with severity `safe` and message exactly
"Routine Check: All Clear", with "Zone 1" substituted for a missing location
and "No hazards detected." for missing reasoning, and both delivered fields
are always nonempty. -/
theorem C10_safeStatusVerdict (r : RawResponse) (cand : RawCandidate)
    (rest : List RawCandidate) (loc rs : Option (List Char))
    (more : List RawFunctionCall)
    (hc : r.candidates = cand :: rest)
    (hf : candFunctionCalls cand = RawFunctionCall.safeStatus loc rs :: more) :
    analyzeFrame (Except.ok r) =
      some ⟨Severity.safe, routineClearMessage, jsOrElse loc zone1Default,
        jsOrElse rs noHazardsDefault⟩ ∧
    routineClearMessage = "Routine Check: All Clear".data ∧
    jsOrElse loc zone1Default ≠ [] ∧
    jsOrElse rs noHazardsDefault ≠ [] ∧
    (loc = none → jsOrElse loc zone1Default = zone1Default) ∧
    (rs = none → jsOrElse rs noHazardsDefault = noHazardsDefault) := by
  refine ⟨?_, rfl, ?_, ?_, ?_, ?_⟩
  · simp [analyzeFrame, hc, hf]
  · exact jsOrElse_ne_nil loc zone1Default (by decide)
  · exact jsOrElse_ne_nil rs noHazardsDefault (by decide)
  · intro h; subst h; rfl
  · intro h; subst h; rfl

/-- Witness for C10 at a concrete safe-status response with both fields
missing. -/
theorem C10_safeStatusVerdict_witness :
    analyzeFrame (Except.ok
        ⟨[⟨some ⟨some [some (RawFunctionCall.safeStatus none none)]⟩⟩]⟩) =
      some ⟨Severity.safe, routineClearMessage, zone1Default, noHazardsDefault⟩ :=
  (C10_safeStatusVerdict
    ⟨[⟨some ⟨some [some (RawFunctionCall.safeStatus none none)]⟩⟩]⟩
    ⟨some ⟨some [some (RawFunctionCall.safeStatus none none)]⟩⟩
    [] none none [] rfl rfl).1
